import Mathlib

/-!
Shallow embedding of the lotus test orchestrator (src/lib.rs, src/docker.rs,
src/runner.rs, src/collectors.rs) and proofs about the claims of its
specification.

Conventions of the embedding:
* machine integers are `Nat` (no overflow is reachable in the modelled code);
* file contents are byte lists (`Bytes := List Nat`);
* paths are lists of components (`Path := List String`);
* `anyhow::Result` is `Except AnyErr α`, where `AnyErr` keeps the
  `.context(...)` wrapping chain explicit, mirroring anyhow's error chains;
* effectful operations (Docker API calls, HTTP, the mpsc queue) are modelled
  by explicit outcome parameters and by traces of emitted events.
-/

namespace Lotus

/-- Bytes of a file, one `Nat` per byte. -/
abbrev Bytes := List Nat

/-- A filesystem path, as its list of components. -/
abbrev Path := List String

/-! Constants from `src/lib.rs`. -/

def INPUT_PORT : Nat := 5066
def OUTPUT_PORT : Nat := 5067
def API_PORT : Nat := 9600
/-- `LOCALHOST.to_string()` where `LOCALHOST = IpAddr::V4(127.0.0.1)`. -/
def LOCALHOST : String := "127.0.0.1"
def INPUT_FILE : String := "input.json"
def EXPECTED_FILE : String := "expected.json"
def SCRIPTS_DIR : String := "scripts"
def PATTERNS_DIR : String := "patterns"
def IMAGE_ARCHIVE_NAME : String := "image.tar"
def PIPELINE_NAME : String := "logstash.conf"
def INPUT_TEMPLATE_NAME : String := "input.conf"
def OUTPUT_TEMPLATE_NAME : String := "output.conf"

/-- `anyhow::Error`: a base message optionally wrapped by `.context(...)`
layers (outermost context first, as anyhow reports them). -/
inductive AnyErr where
  | msg (s : String)
  | context (s : String) (inner : AnyErr)
deriving Repr, DecidableEq

/-- `anyhow::Context::context` on a `Result`: wraps only the error case. -/
def withContext (s : String) : Except AnyErr α → Except AnyErr α
  | .ok a => .ok a
  | .error e => .error (.context s e)

/-! ## `healthy` (src/docker.rs lines 279-324)

The Docker inspection of attempt `i` is abstracted as `obs i`:
`none` when the inspect response carries no `state.health.status`
(the code's `health == None` case), `some hs` otherwise. -/

/-- `bollard::models::HealthStatusEnum`. -/
inductive HealthStatusEnum where
  | EMPTY
  | NONE
  | STARTING
  | HEALTHY
  | UNHEALTHY
deriving Repr, DecidableEq

/-- The error cases of `healthy`. -/
inductive HealthErr where
  | retriesExhausted (retries : Nat)
  | unexpectedStatus (s : HealthStatusEnum)
  | noHealthStatus
deriving Repr, DecidableEq

/-- Result of `healthy`, instrumented with the number of container
inspections performed (`attempts`) and of `sleep(delay)` calls (`sleeps`). -/
structure HealthRun where
  result : Except HealthErr Unit
  attempts : Nat
  sleeps : Nat
deriving Repr

/-- The `'retry: loop` of `healthy`: `i` is the 0-based index of the current
attempt, `curr` is `curr_retries`, `sleeps` counts the `sleep(delay)` calls
made so far.  Mirrors src/docker.rs lines 288-321. -/
def healthyGo (retries : Nat) (obs : Nat → Option HealthStatusEnum)
    (i curr sleeps : Nat) : HealthRun :=
  match obs i with
  | some .HEALTHY => ⟨.ok (), i + 1, sleeps⟩
  | some .STARTING =>
    if h : curr + 1 ≥ retries then
      ⟨.error (.retriesExhausted retries), i + 1, sleeps⟩
    else
      healthyGo retries obs (i + 1) (curr + 1) (sleeps + 1)
  | some s => ⟨.error (.unexpectedStatus s), i + 1, sleeps⟩
  | none => ⟨.error .noHealthStatus, i + 1, sleeps⟩
termination_by retries - curr
decreasing_by simp_wf; omega

/-- `healthy` (src/docker.rs): starts the loop with `curr_retries = 0`. -/
def healthy (retries : Nat) (obs : Nat → Option HealthStatusEnum) : HealthRun :=
  healthyGo retries obs 0 0 0

/-! ## `build_image_archive` (src/docker.rs lines 37-174)

Rendered template output is abstracted as a function `render` from the
template name to the rendered bytes: rendering is a pure function of the
embedded template and the fixed Handlebars context (ports and directory
names from src/lib.rs), so it is the same function on every invocation.
The embedded template assets themselves (the repository's `logstash/`
folder) are not under src/; following the spec ("render each fixed
configuration template"), the config templates form a fixed set of names.
Their enumeration, however, is decided by code under src/: line 69
iterates `hbs.get_templates().keys()`, the keys of a `std` `HashMap`
inside a `Handlebars` registry built afresh by every invocation, and a
`std` `HashMap`'s iteration order is randomized per instance.  The order
is therefore a per-invocation observation, not a stable input: it is
passed to the model as the `templates` parameter, and two invocations may
observe two different permutations of the same template set. -/

/-- A source file handed to the builder: its base name, its content bytes,
and its filesystem modification time (metadata that is *not* part of the
content). -/
structure SrcFile where
  name : String
  content : Bytes
  mtime : Nat
deriving Repr, DecidableEq

/-- The name and content of a source file, without filesystem metadata. -/
def SrcFile.stripMeta (s : SrcFile) : String × Bytes := (s.name, s.content)

/-- Appending bytes to an open file (`write_all` / the effect of
`std::io::copy` into the file). -/
def fileWrite (f : Bytes) (d : Bytes) : Bytes := f ++ d

/-- The `for rule in rules` loop of src/docker.rs lines 98-105: each rule
file's raw bytes are copied into the open pipeline file. -/
def copyRulesToPipeline (rules : List SrcFile) (f : Bytes) : Bytes :=
  rules.foldl (fun acc r => fileWrite acc r.content) f

/-- Content of the pipeline file `logstash.conf` assembled by
src/docker.rs lines 86-108: render `input.conf`, copy every rule, render
`output.conf`. -/
def pipelineFileContent (render : String → Bytes) (rules : List SrcFile) : Bytes :=
  fileWrite (copyRulesToPipeline rules (fileWrite [] (render INPUT_TEMPLATE_NAME)))
    (render OUTPUT_TEMPLATE_NAME)

/-- `tar::HeaderMode`.  The code sets `ark.mode(HeaderMode::Deterministic)`
(src/docker.rs line 48). -/
inductive HeaderMode where
  | complete
  | deterministic
deriving Repr, DecidableEq

/-- One tar archive entry.  Modelled from the spec for the parts decided by
the external `tar` crate: the entry is its path, its header modification
time, and its content ("stable per-entry metadata (fixed timestamps/modes)").
-/
structure TarEntry where
  path : Path
  mtime : Nat
  content : Bytes
deriving Repr, DecidableEq

/-- `Builder::append_file` header construction: in `Deterministic` mode the
stored mtime is a fixed constant, independent of the source file's
metadata; in `Complete` mode the source file's mtime is stored. -/
def entryFor (hm : HeaderMode) (p : Path) (content : Bytes) (srcMtime : Nat) : TarEntry :=
  match hm with
  | .deterministic => ⟨p, 1153704088, content⟩
  | .complete => ⟨p, srcMtime, content⟩

/-- The sequence of entries appended to `image.tar` by `build_image_archive`
(src/docker.rs lines 37-174): the rendered config templates in the
enumeration order `templates` that this invocation observed from the
registry's `HashMap` (staged files written now, hence carrying the
build-time mtime `now`), the assembled pipeline file, the ruby scripts
with their base names under `scripts/`, an empty `.gitkeep` placeholder
(a fresh `tempfile`, mtime `now`), the grok patterns under `patterns/`,
and their `.gitkeep` placeholder. -/
def build_image_archive (hm : HeaderMode) (render : String → Bytes)
    (templates : List String) (now : Nat)
    (rules scripts patterns : List SrcFile) : List TarEntry :=
  (templates.map (fun t => entryFor hm [t] (render t) now))
    ++ [entryFor hm [PIPELINE_NAME] (pipelineFileContent render rules) now]
    ++ (scripts.map (fun s => entryFor hm [SCRIPTS_DIR, s.name] s.content s.mtime))
    ++ [entryFor hm [SCRIPTS_DIR, ".gitkeep"] [] now]
    ++ (patterns.map (fun s => entryFor hm [PATTERNS_DIR, s.name] s.content s.mtime))
    ++ [entryFor hm [PATTERNS_DIR, ".gitkeep"] [] now]

/-- Byte serialization of one tar entry: path bytes, header mtime, content
length, content.  (An abstraction of the tar wire format; equality of the
serialized archives is what "byte-identical artifacts" means.) -/
def serializeEntry (e : TarEntry) : Bytes :=
  (e.path.map (fun s => s.toList.map Char.toNat)).flatten
    ++ [e.mtime, e.content.length] ++ e.content

/-- Byte serialization of the whole archive, entry by entry. -/
def serializeArchive (a : List TarEntry) : Bytes :=
  (a.map serializeEntry).flatten

/-! ## `create_container` (src/docker.rs lines 238-276) -/

/-- `bollard::models::PortBinding`. -/
structure PortBinding where
  host_ip : String
  host_port : String
deriving Repr, DecidableEq

/-- The container configuration passed to `Docker::create_container`
(the fields the code sets explicitly). -/
structure ContainerConfig where
  image : String
  attach_stdout : Bool
  attach_stderr : Bool
  auto_remove : Bool
  port_bindings : List (String × List PortBinding)
deriving Repr, DecidableEq

/-- `format!("{}/tcp", p)`. -/
def portKey (p : Nat) : String := toString p ++ "/tcp"

/-- `create_container` (src/docker.rs lines 238-276): both the container
port key and the host port string are built with `format!("{}/tcp", p)`,
and the bound ports are `[INPUT_PORT, API_PORT]`. -/
def create_container (image : String) (delete_container : Bool) : ContainerConfig :=
  { image := image
    attach_stdout := true
    attach_stderr := true
    auto_remove := delete_container
    port_bindings := [INPUT_PORT, API_PORT].map (fun p =>
      (portKey p, [{ host_ip := LOCALHOST, host_port := portKey p }])) }

/-! ## `run_single_test` (src/runner.rs lines 84-150)

`serde_json::Value` is abstracted as an opaque value type `JVal`: none of
the claims settled here depends on the structure of JSON documents, and the
comparator `assert_json_matches_no_panic` is an external crate, modelled as
an opaque comparison function returning `none` on match and a diagnostic
string on mismatch. -/

/-- Opaque stand-in for `serde_json::Value`. -/
abbrev JVal := Nat

/-- `serde_json::to_string_pretty`, abstracted. -/
def pretty (v : JVal) : String := toString v

/-- Observable actions of one `run_single_test` call: the HTTP POST to the
engine succeeded, an event was taken from the queue, the comparator was
invoked. -/
inductive DriverEv where
  | posted
  | received (v : JVal)
  | compared
deriving Repr, DecidableEq

/-- `run_single_test` (src/runner.rs lines 84-150).
`inputRes`/`expectedRes` are the outcomes of opening and deserializing the
two fixture files; `post` is the outcome of `client.post(...).send()`,
whose `.ok` carries the HTTP response status (the code binds the response
and never reads it — note the `.ok` branch below discards it); `queue` is
the pending event queue, `[]` modelling `recv()` yielding `None`. -/
def run_single_test (inputRes : Except AnyErr JVal)
    (post : JVal → Except AnyErr Nat) (queue : List JVal)
    (expectedRes : Except AnyErr JVal)
    (cmp : JVal → JVal → Option String) (verbose : Bool) :
    Except AnyErr Unit × List DriverEv :=
  match inputRes with
  | .error e => (.error e, [])
  | .ok input_data =>
    match post input_data with
    | .error e =>
      (.error (.context "Sending input data to the Logstash container via HTTP" e), [])
    | .ok _status =>
      match queue with
      | [] => (.error (.msg "Logstash did not send output event data"), [.posted])
      | output_data :: _ =>
        match expectedRes with
        | .error e => (.error e, [.posted, .received output_data])
        | .ok expected_data =>
          match cmp output_data expected_data with
          | none => (.ok (), [.posted, .received output_data, .compared])
          | some diag =>
            let m := if verbose then
                diag ++ "\n\nactual:\n" ++ pretty output_data
                  ++ "\n\nexpected:\n" ++ pretty expected_data
              else diag
            (.error (.context
                "Comparing the actual Logstash output (lhs) with the expected output (rhs)"
                (.msg m)),
              [.posted, .received output_data, .compared])

/-! ## `run_tests` and `TestContext` (src/runner.rs lines 15-201) -/

/-- A collected test case: the two fixture paths (src/runner.rs lines 77-81). -/
structure RTestCase where
  input : Path
  expected : Path
deriving Repr, DecidableEq

/-- `Display` of a path. -/
def pathString (p : Path) : String := String.intercalate "/" p

/-- The context string `format!("Running test case {}: {}", i,
test_case.input.display())` of src/runner.rs line 187. -/
def caseContext (i : Nat) (tc : RTestCase) : String :=
  "Running test case " ++ toString i ++ ": " ++ pathString tc.input

/-- The `for (i, test_case)` loop of src/runner.rs lines 178-196, with the
outcome of the `run_single_test` call for case `i` abstracted as
`outcomes i`.  Returns the loop's `test_result` and the number of cases
attempted (calls made before the loop ended). -/
def runLoop (outcomes : Nat → Except AnyErr Unit) :
    Nat → List RTestCase → Except AnyErr Unit × Nat
  | _, [] => (.ok (), 0)
  | i, tc :: rest =>
    match withContext (caseContext i tc) (outcomes i) with
    | .ok _ =>
      let r := runLoop outcomes (i + 1) rest
      (r.1, r.2 + 1)
    | .error e => (.error e, 1)

/-- Outcomes of the effectful steps a `run_tests` call performs, in program
order: connecting to Docker, building the image, creating the container,
starting it, the health check, the per-case `run_single_test` outcomes, and
stopping the container. -/
structure RunEnv where
  connect : Except AnyErr Unit
  buildImage : Except AnyErr Unit
  create : Except AnyErr Unit
  startContainer : Except AnyErr Unit
  health : Except AnyErr Unit
  caseOutcome : Nat → Except AnyErr Unit
  stopContainer : Except AnyErr Unit

/-- Container lifecycle events: a successful creation, a successful start,
and an *invocation* of `stop_container` (whether or not it succeeds). -/
inductive LifeEv where
  | create
  | start
  | stop
deriving Repr, DecidableEq

/-- `TestContext::new` (src/runner.rs lines 24-68): connect, build the
image, create the container, start it, wait for health; each failure is
wrapped with its context string and aborts.  The returned trace records the
successful create and start. -/
def TestContext.new (env : RunEnv) : Except AnyErr Unit × List LifeEv :=
  match env.connect with
  | .error e => (.error (.context "Connecting to the Docker API" e), [])
  | .ok _ =>
    match env.buildImage with
    | .error e =>
      (.error (.context "Building the Docker container image for Logstash" e), [])
    | .ok _ =>
      match env.create with
      | .error e => (.error (.context "Creating the Logstash Docker container" e), [])
      | .ok _ =>
        match env.startContainer with
        | .error e =>
          (.error (.context "Starting the Logstash Docker container" e), [.create])
        | .ok _ =>
          match env.health with
          | .error e =>
            (.error (.context "Waiting for the Docker container to be healthy" e),
              [.create, .start])
          | .ok _ => (.ok (), [.create, .start])

/-- `TestContext::close` (src/runner.rs lines 70-75): invokes
`stop_container` and propagates its error unwrapped. -/
def TestContext.close (env : RunEnv) : Except AnyErr Unit := env.stopContainer

/-- `run_tests` (src/runner.rs lines 152-201): bootstrap the context (the
`?` at line 176 aborts without any stop when bootstrap fails), run the case
loop storing its first failure in `test_result`, then `context.close().await?;
test_result` — the stop is always invoked after a successful bootstrap, and
a stop error is propagated by `?`, replacing `test_result`.
Returns (result, number of cases attempted, lifecycle trace). -/
def run_tests (env : RunEnv) (cases : List RTestCase) :
    Except AnyErr Unit × Nat × List LifeEv :=
  match TestContext.new env with
  | (.error e, evs) => (.error (.context "Bootstrapping the test environment" e), 0, evs)
  | (.ok _, evs) =>
    let lp := runLoop env.caseOutcome 0 cases
    match TestContext.close env with
    | .error e => (.error e, lp.2, evs ++ [.stop])
    | .ok _ => (lp.1, lp.2, evs ++ [.stop])

/-! ## `collect_tests` (src/collectors.rs lines 8-45) -/

/-- One entry of `read_dir(tests_dir)`: its name, whether it is a
directory, and (when it is) the names of the regular files directly inside
it — `input_file.is_file()` is membership of `input.json` in this list. -/
structure FsEntry where
  name : String
  isDir : Bool
  files : List String
deriving Repr, DecidableEq

/-- `collect_tests` (src/collectors.rs lines 8-45): skip non-directories;
for each subdirectory require `input.json` then `expected.json`, aborting
with an error naming the missing file; on success pair the two files of the
same subdirectory, in directory order. -/
def collect_tests (testsDir : Path) : List FsEntry → Except AnyErr (List RTestCase)
  | [] => .ok []
  | e :: rest =>
    if e.isDir then
      let dir := testsDir ++ [e.name]
      if INPUT_FILE ∈ e.files then
        if EXPECTED_FILE ∈ e.files then
          match collect_tests testsDir rest with
          | .ok tcs => .ok (⟨dir ++ [INPUT_FILE], dir ++ [EXPECTED_FILE]⟩ :: tcs)
          | .error err => .error err
        else
          .error (.msg ("The expected output file was not found: "
            ++ pathString (dir ++ [EXPECTED_FILE])))
      else
        .error (.msg ("The input file was not found: "
          ++ pathString (dir ++ [INPUT_FILE])))
    else collect_tests testsDir rest

/-! ## Sample inputs used by concrete witnesses and counterexamples -/

/-- A strict comparator sample: equal values match, unequal values produce a
diagnostic. -/
def strictEqCmp (a b : JVal) : Option String :=
  if a = b then none else some "json atoms at path are not equal"

/-- A run environment in which every external operation succeeds. -/
def envAllOk : RunEnv :=
  { connect := .ok ()
    buildImage := .ok ()
    create := .ok ()
    startContainer := .ok ()
    health := .ok ()
    caseOutcome := fun _ => .ok ()
    stopContainer := .ok () }

/-- A sample collected test case. -/
def tcSample : RTestCase :=
  { input := ["tests", "a", "input.json"], expected := ["tests", "a", "expected.json"] }

/-! # Theorems -/

/-- `copyRulesToPipeline` appends exactly the concatenated raw rule bytes. -/
theorem copyRules_eq_append (rules : List SrcFile) :
    ∀ f, copyRulesToPipeline rules f = f ++ (rules.map SrcFile.content).flatten := by
  induction rules with
  | nil => intro f; simp [copyRulesToPipeline]
  | cons r rest ih =>
    intro f
    simp only [copyRulesToPipeline, List.foldl_cons, List.map_cons, List.flatten_cons]
    rw [show List.foldl (fun acc r => fileWrite acc r.content) (fileWrite f r.content) rest
        = copyRulesToPipeline rest (fileWrite f r.content) from rfl]
    rw [ih]
    simp [fileWrite]

/-- If every inspection reports "starting" and `curr < retries`, the loop
runs for the remaining `retries - curr` attempts, sleeping between
consecutive attempts but not after the last one. -/
theorem healthyGo_allStarting (retries : Nat) (obs : Nat → Option HealthStatusEnum)
    (hobs : ∀ j, obs j = some .STARTING) :
    ∀ n curr i sleeps, retries - curr = n → curr < retries →
      healthyGo retries obs i curr sleeps =
        ⟨.error (.retriesExhausted retries), i + (retries - curr),
          sleeps + (retries - curr - 1)⟩ := by
  intro n
  induction n with
  | zero => intro curr i sleeps hn hlt; omega
  | succ m ih =>
    intro curr i sleeps hn hlt
    rw [healthyGo]
    rw [hobs i]
    by_cases hge : curr + 1 ≥ retries
    · simp only [hge, dite_true]
      have : retries - curr = 1 := by omega
      rw [this]
      norm_num
    · simp only [hge, dite_false]
      rw [ih (curr + 1) (i + 1) (sleeps + 1) (by omega) (by omega)]
      have h2 : 2 ≤ retries - curr := by omega
      congr 1 <;> omega

/-- If the very first inspection reports neither "starting" nor "healthy",
the loop fails on that first attempt without sleeping. -/
theorem healthy_firstBad (retries : Nat) (obs : Nat → Option HealthStatusEnum) :
    (∀ s, obs 0 = some s → s ≠ .STARTING → s ≠ .HEALTHY →
      healthy retries obs = ⟨.error (.unexpectedStatus s), 1, 0⟩)
    ∧ (obs 0 = none → healthy retries obs = ⟨.error .noHealthStatus, 1, 0⟩) := by
  constructor
  · intro s h hns hnh
    rw [healthy, healthyGo, h]
    cases s with
    | STARTING => exact absurd rfl hns
    | HEALTHY => exact absurd rfl hnh
    | EMPTY => rfl
    | NONE => rfl
    | UNHEALTHY => rfl
  · intro h
    rw [healthy, healthyGo, h]

/-- C3 (amended): for every retries bound and delay, if `retries ≥ 1` and
every inspection reports "starting", `healthy` fails after exactly
`retries` attempts with `retries - 1` sleeps (one between consecutive
attempts, none after the last); and, for any retries bound, if the first
inspection reports a status other than "starting"/"healthy", or no health
field at all, `healthy` fails immediately on that first attempt with zero
sleeps. -/
theorem healthy_retry_semantics_amended (retries : Nat)
    (obs : Nat → Option HealthStatusEnum) :
    (1 ≤ retries → (∀ j, obs j = some .STARTING) →
      healthy retries obs = ⟨.error (.retriesExhausted retries), retries, retries - 1⟩)
    ∧ (∀ s, obs 0 = some s → s ≠ .STARTING → s ≠ .HEALTHY →
        healthy retries obs = ⟨.error (.unexpectedStatus s), 1, 0⟩)
    ∧ (obs 0 = none → healthy retries obs = ⟨.error .noHealthStatus, 1, 0⟩) := by
  refine ⟨fun h1 hobs => ?_, (healthy_firstBad retries obs).1,
    (healthy_firstBad retries obs).2⟩
  rw [healthy, healthyGo_allStarting retries obs hobs retries 0 0 0 (by omega) (by omega)]
  simp

/-- Witness for C3's amended theorem at `retries = 3`: three perpetually
"starting" inspections give exactly 3 attempts and 2 sleeps; an absent
health field or an "unhealthy" status fails on the first attempt with zero
sleeps. -/
theorem healthy_retry_semantics_amended_witness :
    healthy 3 (fun _ => some .STARTING) = ⟨.error (.retriesExhausted 3), 3, 2⟩
    ∧ healthy 3 (fun _ => none) = ⟨.error .noHealthStatus, 1, 0⟩
    ∧ healthy 3 (fun _ => some .UNHEALTHY)
        = ⟨.error (.unexpectedStatus .UNHEALTHY), 1, 0⟩ := by
  refine ⟨(healthy_retry_semantics_amended 3 (fun _ => some .STARTING)).1
      (by norm_num) (fun _ => rfl),
    (healthy_retry_semantics_amended 3 (fun _ => none)).2.2 rfl,
    (healthy_retry_semantics_amended 3 (fun _ => some .UNHEALTHY)).2.1 .UNHEALTHY rfl
      (by decide) (by decide)⟩

/-- C3 counterexample: with `retries = 0` and perpetually "starting"
inspections, `healthy` still performs one attempt before failing, not
"exactly `retries` (= 0) attempts" as the claim states. -/
theorem healthy_zero_retries_counterexample :
    healthy 0 (fun _ => some .STARTING) = ⟨.error (.retriesExhausted 0), 1, 0⟩
    ∧ (1 : Nat) ≠ 0 := by
  constructor
  · rw [healthy, healthyGo]
    norm_num
  · norm_num

/-- C1: for a rule set given as a list of files sorted ascending by file
name, the pipeline definition file assembled by `build_image_archive` —
and added to the artifact under the name `logstash.conf` — equals, byte
for byte, the rendered `input.conf` template, followed by the raw bytes of
every rule in order, followed by the rendered `output.conf` template. -/
theorem pipeline_definition_assembly (render : String → Bytes)
    (templates : List String) (now : Nat) (rules scripts patterns : List SrcFile)
    (hsorted : List.Pairwise (fun a b => a.name ≤ b.name) rules) :
    pipelineFileContent render rules
      = render INPUT_TEMPLATE_NAME ++ (rules.map SrcFile.content).flatten
        ++ render OUTPUT_TEMPLATE_NAME
    ∧ ∃ pre post,
        build_image_archive .deterministic render templates now rules scripts patterns
          = pre ++ (⟨[PIPELINE_NAME], 1153704088, pipelineFileContent render rules⟩
              : TarEntry) :: post := by
  constructor
  · rw [pipelineFileContent, copyRules_eq_append]
    simp [fileWrite]
  · refine ⟨templates.map (fun t => entryFor .deterministic [t] (render t) now),
      (scripts.map (fun s => entryFor .deterministic [SCRIPTS_DIR, s.name] s.content s.mtime))
        ++ [entryFor .deterministic [SCRIPTS_DIR, ".gitkeep"] [] now]
        ++ (patterns.map (fun s => entryFor .deterministic [PATTERNS_DIR, s.name]
              s.content s.mtime))
        ++ [entryFor .deterministic [PATTERNS_DIR, ".gitkeep"] [] now], ?_⟩
    simp [build_image_archive, entryFor]

/-- Witness for C1 at a concrete (trivially sorted) one-rule set. -/
theorem pipeline_definition_assembly_witness :
    pipelineFileContent (fun t => if t = INPUT_TEMPLATE_NAME then [10] else [20])
        [⟨"00-dummy.conf", [1, 2], 5⟩]
      = [10] ++ ([1, 2] ++ []) ++ [20]
    ∧ ∃ pre post,
        build_image_archive .deterministic
            (fun t => if t = INPUT_TEMPLATE_NAME then [10] else [20]) [] 0
            [⟨"00-dummy.conf", [1, 2], 5⟩] [] []
          = pre ++ (⟨[PIPELINE_NAME], 1153704088,
              pipelineFileContent (fun t => if t = INPUT_TEMPLATE_NAME then [10] else [20])
                [⟨"00-dummy.conf", [1, 2], 5⟩]⟩
              : TarEntry) :: post := by
  have h := pipeline_definition_assembly
    (fun t => if t = INPUT_TEMPLATE_NAME then [10] else [20]) [] 0
    [⟨"00-dummy.conf", [1, 2], 5⟩] [] []
    (List.pairwise_singleton _ _)
  refine ⟨?_, h.2⟩
  rw [h.1]
  decide

/-- Lists of files with the same names and contents have the same contents. -/
theorem map_content_of_stripMeta (xs ys : List SrcFile)
    (h : xs.map SrcFile.stripMeta = ys.map SrcFile.stripMeta) :
    xs.map SrcFile.content = ys.map SrcFile.content := by
  have hx : xs.map SrcFile.content = (xs.map SrcFile.stripMeta).map Prod.snd := by
    rw [List.map_map]; rfl
  have hy : ys.map SrcFile.content = (ys.map SrcFile.stripMeta).map Prod.snd := by
    rw [List.map_map]; rfl
  rw [hx, hy, h]

/-- Deterministic-mode auxiliary-file entries depend only on the file names
and contents, not on the filesystem mtimes. -/
theorem map_entry_det_of_stripMeta (d : String) (xs ys : List SrcFile)
    (h : xs.map SrcFile.stripMeta = ys.map SrcFile.stripMeta) :
    xs.map (fun s => entryFor .deterministic [d, s.name] s.content s.mtime)
      = ys.map (fun s => entryFor .deterministic [d, s.name] s.content s.mtime) := by
  have hx : xs.map (fun s => entryFor .deterministic [d, s.name] s.content s.mtime)
      = (xs.map SrcFile.stripMeta).map
          (fun nc => (⟨[d, nc.1], 1153704088, nc.2⟩ : TarEntry)) := by
    rw [List.map_map]; rfl
  have hy : ys.map (fun s => entryFor .deterministic [d, s.name] s.content s.mtime)
      = (ys.map SrcFile.stripMeta).map
          (fun nc => (⟨[d, nc.1], 1153704088, nc.2⟩ : TarEntry)) := by
    rw [List.map_map]; rfl
  rw [hx, hy, h]

/-- C4 (amended): two invocations of `build_image_archive` with identical
inputs — the same rule, script and pattern file lists with identical names
and contents, into the same cache directory — produce byte-identical
artifacts *when both invocations enumerate the config templates in the
same order*, even when the build times and the filesystem modification
times of the source files differ, because the archive is written with
deterministic header metadata; in general the two enumerations are two
per-invocation iteration orders of the registry's `HashMap`, so only the
entry lists being permutations of each other is guaranteed. -/
theorem archive_build_deterministic (render : String → Bytes)
    (templates1 templates2 : List String) (now1 now2 : Nat)
    (rules1 rules2 scripts1 scripts2 patterns1 patterns2 : List SrcFile)
    (hr : rules1.map SrcFile.stripMeta = rules2.map SrcFile.stripMeta)
    (hs : scripts1.map SrcFile.stripMeta = scripts2.map SrcFile.stripMeta)
    (hp : patterns1.map SrcFile.stripMeta = patterns2.map SrcFile.stripMeta) :
    (templates1 = templates2 →
      serializeArchive
          (build_image_archive .deterministic render templates1 now1 rules1 scripts1 patterns1)
        = serializeArchive
            (build_image_archive .deterministic render templates2 now2 rules2 scripts2 patterns2))
    ∧ (templates1.Perm templates2 →
        List.Perm
          (build_image_archive .deterministic render templates1 now1 rules1 scripts1 patterns1)
          (build_image_archive .deterministic render templates2 now2 rules2 scripts2 patterns2)) := by
  have hpipe : pipelineFileContent render rules1 = pipelineFileContent render rules2 := by
    rw [pipelineFileContent, pipelineFileContent, copyRules_eq_append, copyRules_eq_append,
      map_content_of_stripMeta rules1 rules2 hr]
  have h1 := map_entry_det_of_stripMeta SCRIPTS_DIR scripts1 scripts2 hs
  have h2 := map_entry_det_of_stripMeta PATTERNS_DIR patterns1 patterns2 hp
  constructor
  · intro ht
    subst ht
    have hb : build_image_archive .deterministic render templates1 now1 rules1 scripts1 patterns1
        = build_image_archive .deterministic render templates1 now2 rules2 scripts2 patterns2 := by
      rw [build_image_archive, build_image_archive, hpipe, h1, h2]
      simp [entryFor]
    rw [hb]
  · intro hperm
    rw [build_image_archive, build_image_archive, hpipe, h1, h2]
    simp only [entryFor]
    exact (((((hperm.map _).append_right _).append_right _).append_right _).append_right
      _).append_right _

/-- Witness for C4's amended theorem: with the same one-template
enumeration, different mtimes (100 vs 999) and build times (1 vs 2) yield
byte-identical archives; with the two-template enumeration permuted
between the invocations, the entry lists are permutations of each other. -/
theorem archive_build_deterministic_witness :
    serializeArchive (build_image_archive .deterministic (fun _ => [7]) ["logstash.yml"] 1
        [⟨"00-dummy.conf", [1], 100⟩] [⟨"s.rb", [2], 100⟩] [⟨"p", [3], 100⟩])
      = serializeArchive (build_image_archive .deterministic (fun _ => [7]) ["logstash.yml"] 2
          [⟨"00-dummy.conf", [1], 999⟩] [⟨"s.rb", [2], 999⟩] [⟨"p", [3], 999⟩])
    ∧ List.Perm
        (build_image_archive .deterministic (fun _ => [7]) ["Dockerfile", "logstash.yml"] 1
          [⟨"00-dummy.conf", [1], 100⟩] [] [])
        (build_image_archive .deterministic (fun _ => [7]) ["logstash.yml", "Dockerfile"] 2
          [⟨"00-dummy.conf", [1], 999⟩] [] []) :=
  ⟨(archive_build_deterministic (fun _ => [7]) ["logstash.yml"] ["logstash.yml"] 1 2
      [⟨"00-dummy.conf", [1], 100⟩] [⟨"00-dummy.conf", [1], 999⟩]
      [⟨"s.rb", [2], 100⟩] [⟨"s.rb", [2], 999⟩]
      [⟨"p", [3], 100⟩] [⟨"p", [3], 999⟩] rfl rfl rfl).1 rfl,
    (archive_build_deterministic (fun _ => [7]) ["Dockerfile", "logstash.yml"]
      ["logstash.yml", "Dockerfile"] 1 2
      [⟨"00-dummy.conf", [1], 100⟩] [⟨"00-dummy.conf", [1], 999⟩]
      [] [] [] [] rfl rfl rfl).2
      (List.Perm.swap "logstash.yml" "Dockerfile" [])⟩

/-- C4 counterexample: two invocations with byte-identical inputs (the
same single rule, no scripts, no patterns, the same cache directory) whose
freshly built registries enumerate the same two config templates in the
two different `HashMap` iteration orders produce archives that are not
byte-identical: the rendered config entries appear in different positions.
-/
theorem archive_order_nondeterminism_counterexample :
    List.Perm ["Dockerfile", "logstash.yml"] ["logstash.yml", "Dockerfile"]
    ∧ serializeArchive (build_image_archive .deterministic (fun _ => [7])
        ["Dockerfile", "logstash.yml"] 0 [⟨"00-dummy.conf", [1], 0⟩] [] [])
      ≠ serializeArchive (build_image_archive .deterministic (fun _ => [7])
          ["logstash.yml", "Dockerfile"] 0 [⟨"00-dummy.conf", [1], 0⟩] [] []) := by
  constructor
  · exact List.Perm.swap "logstash.yml" "Dockerfile" []
  · decide

/-- A `TestContext::new` call either succeeds with exactly one create and
one start in its trace, or does not succeed. -/
theorem TestContext_new_cases (env : RunEnv) :
    TestContext.new env = (.ok (), [.create, .start])
    ∨ (TestContext.new env).1 ≠ .ok () := by
  rw [TestContext.new]
  cases env.connect with
  | error e => right; simp
  | ok u =>
    cases env.buildImage with
    | error e => right; simp
    | ok u2 =>
      cases env.create with
      | error e => right; simp
      | ok u3 =>
        cases env.startContainer with
        | error e => right; simp
        | ok u4 =>
          cases env.health with
          | error e => right; simp
          | ok u5 => left; rfl

/-- A successful `TestContext::new` returns the ok context and has recorded
exactly the create and the start. -/
theorem TestContext_new_of_ok (env : RunEnv) (h : (TestContext.new env).1 = .ok ()) :
    TestContext.new env = (.ok (), [.create, .start]) := by
  rcases TestContext_new_cases env with h1 | h2
  · exact h1
  · exact absurd h h2

/-- When create and start succeed but the health check fails,
`TestContext::new` fails with the health context after having created and
started the container. -/
theorem TestContext_new_health_error (env : RunEnv)
    (hc : env.connect = .ok ()) (hb : env.buildImage = .ok ())
    (hcr : env.create = .ok ()) (hst : env.startContainer = .ok ())
    (e : AnyErr) (hh : env.health = .error e) :
    TestContext.new env
      = (.error (.context "Waiting for the Docker container to be healthy" e),
          [.create, .start]) := by
  rw [TestContext.new, hc, hb, hcr, hst, hh]

/-- The test loop stops at the first failing case: with the cases before
`k` succeeding and case `k` failing, exactly `k + 1` cases are attempted
and the loop result is the case error wrapped with the context naming the
case index and its input path. -/
theorem runLoop_firstFailure (outcomes : Nat → Except AnyErr Unit) :
    ∀ (cases : List RTestCase) (i k : Nat) (e : AnyErr) (hk : k < cases.length),
      (∀ j, j < k → outcomes (i + j) = .ok ()) →
      outcomes (i + k) = .error e →
      runLoop outcomes i cases
        = (.error (.context (caseContext (i + k) (cases.get ⟨k, hk⟩)) e), k + 1) := by
  intro cases
  induction cases with
  | nil => intro i k e hk; simp at hk
  | cons tc rest ih =>
    intro i k e hk hok herr
    cases k with
    | zero =>
      have h0 : outcomes i = .error e := by simpa using herr
      simp only [runLoop, withContext, h0, List.get]
      simp
    | succ m =>
      have h0 : outcomes i = .ok () := by simpa using hok 0 (Nat.succ_pos m)
      simp only [runLoop, withContext, h0]
      have hm : m < rest.length := by simpa using hk
      have hok2 : ∀ j, j < m → outcomes (i + 1 + j) = .ok () := by
        intro j hj
        have := hok (j + 1) (by omega)
        rwa [show i + (j + 1) = i + 1 + j by omega] at this
      have herr2 : outcomes (i + 1 + m) = .error e := by
        rwa [show i + (m + 1) = i + 1 + m by omega] at herr
      rw [ih (i + 1) m e hm hok2 herr2]
      have hidx : i + 1 + m = i + (m + 1) := by omega
      simp [List.get, hidx]

/-- C5: if the environment bootstrap succeeds, the cases before `k`
succeed, and case `k` fails, then `run_tests` attempts exactly `k + 1`
cases — it halts before case `k + 1` — and (the stop succeeding) returns
an error whose outermost context names the failing case's index and its
input path. -/
theorem run_tests_fail_fast (env : RunEnv) (cases : List RTestCase)
    (k : Nat) (e : AnyErr)
    (hboot : (TestContext.new env).1 = .ok ())
    (hstop : env.stopContainer = .ok ())
    (hk : k < cases.length)
    (hok : ∀ j, j < k → env.caseOutcome j = .ok ())
    (herr : env.caseOutcome k = .error e) :
    run_tests env cases
      = (.error (.context (caseContext k (cases.get ⟨k, hk⟩)) e), k + 1,
          [.create, .start, .stop]) := by
  have hnew := TestContext_new_of_ok env hboot
  have hloop := runLoop_firstFailure env.caseOutcome cases 0 k e hk
    (fun j hj => by simpa using hok j hj) (by simpa using herr)
  rw [run_tests, hnew]
  simp only [TestContext.close, hstop, hloop]
  simp

/-- Witness for C5: three cases, the second one fails; exactly two cases
are attempted and the reported error names index 1 and the input path. -/
theorem run_tests_fail_fast_witness :
    run_tests
        { envAllOk with
            caseOutcome := fun n => if n = 1 then .error (.msg "boom") else .ok () }
        [tcSample, tcSample, tcSample]
      = (.error (.context (caseContext 1 tcSample) (.msg "boom")), 2,
          [.create, .start, .stop]) := by
  have h := run_tests_fail_fast
    { envAllOk with
        caseOutcome := fun n => if n = 1 then .error (.msg "boom") else .ok () }
    [tcSample, tcSample, tcSample] 1 (.msg "boom") rfl rfl (by norm_num)
    (by intro j hj
        have : j = 0 := by omega
        subst this
        rfl)
    rfl
  simpa using h

/-- C2 (amended): once the environment bootstrap (`TestContext::new`)
succeeds, every exit path of `run_tests` — success, fixture mismatch, and
even a failing stop — has exactly one create, one start, and one stop
invocation; but when the bootstrap itself fails after the container was
created and started (a failed health check), `run_tests` exits without
invoking stop at all. -/
theorem container_lifecycle_amended (env : RunEnv) (cases : List RTestCase) :
    ((TestContext.new env).1 = .ok () →
      ((run_tests env cases).2.2.count .create = 1
        ∧ (run_tests env cases).2.2.count .start = 1
        ∧ (run_tests env cases).2.2.count .stop = 1))
    ∧ (env.connect = .ok () → env.buildImage = .ok () → env.create = .ok () →
        env.startContainer = .ok () → (∀ e, env.health = .error e →
        ((run_tests env cases).2.2.count .create = 1
          ∧ (run_tests env cases).2.2.count .start = 1
          ∧ (run_tests env cases).2.2.count .stop = 0))) := by
  constructor
  · intro hboot
    have hnew := TestContext_new_of_ok env hboot
    rw [run_tests, hnew]
    cases hcl : TestContext.close env with
    | error e => simp
    | ok u => simp
  · intro hc hb hcr hst e hh
    have hnew := TestContext_new_health_error env hc hb hcr hst e hh
    rw [run_tests, hnew]
    simp

/-- Witness for C2's amended theorem: with everything succeeding the trace
has one create, one start, one stop; with a failing health check it has one
create, one start, and no stop. -/
theorem container_lifecycle_amended_witness :
    ((run_tests envAllOk [tcSample]).2.2.count .create = 1
      ∧ (run_tests envAllOk [tcSample]).2.2.count .start = 1
      ∧ (run_tests envAllOk [tcSample]).2.2.count .stop = 1)
    ∧ ((run_tests { envAllOk with health := .error (.msg "never healthy") }
          [tcSample]).2.2.count .create = 1
      ∧ (run_tests { envAllOk with health := .error (.msg "never healthy") }
          [tcSample]).2.2.count .start = 1
      ∧ (run_tests { envAllOk with health := .error (.msg "never healthy") }
          [tcSample]).2.2.count .stop = 0) :=
  ⟨(container_lifecycle_amended envAllOk [tcSample]).1 rfl,
    (container_lifecycle_amended { envAllOk with health := .error (.msg "never healthy") }
      [tcSample]).2 rfl rfl rfl rfl (.msg "never healthy") rfl⟩

/-- C2 counterexample: when the health check fails after the container was
created and started, `run_tests` exits with the bootstrap error and its
lifecycle trace contains the create and the start but zero stop
invocations — not "stopped exactly once" as the claim states. -/
theorem health_failure_leaks_container :
    run_tests { envAllOk with health := .error (.msg "never healthy") } [tcSample]
      = (.error (.context "Bootstrapping the test environment"
          (.context "Waiting for the Docker container to be healthy" (.msg "never healthy"))),
          0, [.create, .start])
    ∧ ([LifeEv.create, LifeEv.start].count .stop = 0 ∧ (0 : Nat) ≠ 1) := by
  constructor
  · rw [run_tests, TestContext_new_health_error _ rfl rfl rfl rfl _ rfl]
  · constructor
    · decide
    · norm_num

/-- C6 (amended): after a successful bootstrap the stop is always invoked,
but its error is not merely secondary: when the container stop fails,
`run_tests` returns the stop error as its result, replacing the test
loop's outcome; the loop's outcome is returned only when the stop
succeeds. -/
theorem stop_error_replaces_result_amended (env : RunEnv) (cases : List RTestCase)
    (hboot : (TestContext.new env).1 = .ok ()) :
    (run_tests env cases).2.2.count .stop = 1
    ∧ (env.stopContainer = .ok () →
        (run_tests env cases).1 = (runLoop env.caseOutcome 0 cases).1)
    ∧ (∀ e, env.stopContainer = .error e → (run_tests env cases).1 = .error e) := by
  have hnew := TestContext_new_of_ok env hboot
  refine ⟨?_, fun hstop => ?_, fun e hstop => ?_⟩
  · rw [run_tests, hnew]
    cases hcl : TestContext.close env with
    | error e2 => simp
    | ok u => simp
  · rw [run_tests, hnew]
    simp only [TestContext.close, hstop]
  · rw [run_tests, hnew]
    simp only [TestContext.close, hstop]

/-- Witness for C6's amended theorem: a failing case followed by a
successful stop returns the case failure; the same with a failing stop
returns the stop error. -/
theorem stop_error_replaces_result_amended_witness :
    (run_tests { envAllOk with caseOutcome := fun _ => .error (.msg "mismatch") }
        [tcSample]).1
      = (runLoop (fun _ => .error (.msg "mismatch")) 0 [tcSample]).1
    ∧ (run_tests { envAllOk with stopContainer := .error (.msg "stop failed") }
        [tcSample]).1 = .error (.msg "stop failed") :=
  ⟨(stop_error_replaces_result_amended
      { envAllOk with caseOutcome := fun _ => .error (.msg "mismatch") }
      [tcSample] rfl).2.1 rfl,
    (stop_error_replaces_result_amended
      { envAllOk with stopContainer := .error (.msg "stop failed") }
      [tcSample] rfl).2.2 (.msg "stop failed") rfl⟩

/-- C6 counterexample: the test loop has produced its outcome (case 0
failed with a comparison mismatch) and the subsequent stop fails; the code
returns the stop error as the primary result, and the prior outcome — a
different error value — is gone. -/
theorem stop_error_masking_counterexample :
    (run_tests
        { envAllOk with
            caseOutcome := fun _ => .error (.msg "mismatch")
            stopContainer := .error (.msg "stop failed") }
        [tcSample]).1 = .error (.msg "stop failed")
    ∧ (runLoop (fun _ => .error (.msg "mismatch")) 0 [tcSample]).1
        = .error (.context (caseContext 0 tcSample) (.msg "mismatch"))
    ∧ (AnyErr.msg "stop failed")
        ≠ .context (caseContext 0 tcSample) (.msg "mismatch") := by
  refine ⟨?_, ?_, ?_⟩
  · rfl
  · simp [runLoop, withContext]
  · intro h
    exact AnyErr.noConfusion h

/-- C7: if the queue is exhausted before an event arrives for the submitted
fixture (the receive yields nothing), `run_single_test` fails with the
distinct "no output produced" error — not a comparison error — and the
comparator is never invoked. -/
theorem no_output_distinct_error (v : JVal) (post : JVal → Except AnyErr Nat)
    (s : Nat) (hpost : post v = .ok s) (expectedRes : Except AnyErr JVal)
    (cmp : JVal → JVal → Option String) (verbose : Bool) :
    run_single_test (.ok v) post [] expectedRes cmp verbose
      = (.error (.msg "Logstash did not send output event data"), [.posted])
    ∧ .compared ∉ (run_single_test (.ok v) post [] expectedRes cmp verbose).2 := by
  have h : run_single_test (.ok v) post [] expectedRes cmp verbose
      = (.error (.msg "Logstash did not send output event data"), [.posted]) := by
    simp [run_single_test, hpost]
  exact ⟨h, by rw [h]; simp⟩

/-- Witness for C7 on concrete inputs, with an empty queue. -/
theorem no_output_distinct_error_witness :
    run_single_test (.ok 1) (fun _ => .ok 204) [] (.ok 2) strictEqCmp false
      = (.error (.msg "Logstash did not send output event data"), [.posted])
    ∧ .compared
        ∉ (run_single_test (.ok 1) (fun _ => .ok 204) [] (.ok 2) strictEqCmp false).2 :=
  no_output_distinct_error 1 (fun _ => .ok 204) 204 rfl (.ok 2) strictEqCmp false

/-- C8 (amended): the HTTP response of the fixture submission is ignored
entirely — status as well as body: any response, success status or not,
lets the driver proceed identically to await the output event; the
submission step fails the test case only when the HTTP send itself fails
(a transport error), which is reported with the sending context. -/
theorem http_status_ignored_amended (inputRes : Except AnyErr JVal)
    (queue : List JVal) (expectedRes : Except AnyErr JVal)
    (cmp : JVal → JVal → Option String) (verbose : Bool) :
    (∀ f g : JVal → Nat,
      run_single_test inputRes (fun w => .ok (f w)) queue expectedRes cmp verbose
        = run_single_test inputRes (fun w => .ok (g w)) queue expectedRes cmp verbose)
    ∧ (∀ (v : JVal) (post : JVal → Except AnyErr Nat) (e : AnyErr),
        inputRes = .ok v → post v = .error e →
        run_single_test inputRes post queue expectedRes cmp verbose
          = (.error (.context "Sending input data to the Logstash container via HTTP" e),
              [])) := by
  constructor
  · intro f g
    cases inputRes with
    | error e => rfl
    | ok v => rfl
  · intro v post e hin hpost
    subst hin
    simp [run_single_test, hpost]

/-- Witness for C8's amended theorem: statuses 200 and 500 behave
identically, and a transport error fails the submission with the sending
context. -/
theorem http_status_ignored_amended_witness :
    run_single_test (.ok 1) (fun _ => .ok 200) [7] (.ok 7) strictEqCmp false
      = run_single_test (.ok 1) (fun _ => .ok 500) [7] (.ok 7) strictEqCmp false
    ∧ run_single_test (.ok 1) (fun _ => .error (.msg "connection refused")) [7]
        (.ok 7) strictEqCmp false
      = (.error (.context "Sending input data to the Logstash container via HTTP"
          (.msg "connection refused")), []) :=
  ⟨(http_status_ignored_amended (.ok 1) [7] (.ok 7) strictEqCmp false).1
      (fun _ => 200) (fun _ => 500),
    (http_status_ignored_amended (.ok 1) [7] (.ok 7) strictEqCmp false).2 1
      (fun _ => .error (.msg "connection refused")) (.msg "connection refused") rfl rfl⟩

/-- C8 counterexample: the engine answers the fixture submission with HTTP
status 500 — not a success status — yet the test case passes: the driver
proceeds to await the event, compares it, and returns ok. -/
theorem http_error_status_passes_counterexample :
    run_single_test (.ok 1) (fun _ => .ok 500) [1] (.ok 1) strictEqCmp false
      = (.ok (), [.posted, .received 1, .compared])
    ∧ ¬(200 ≤ 500 ∧ 500 < 300) := by
  constructor
  · rfl
  · omega

/-- C9 (amended): `create_container` declares the container with stdout and
stderr attached, auto-removal set to the caller's flag, and exactly the
engine's input port 5066/tcp and control-API port 9600/tcp bound on
loopback 127.0.0.1 — but the host port is the string "5066/tcp" resp.
"9600/tcp" (the same-numbered port with a spurious "/tcp" suffix from
`format!("{}/tcp", p)`), not the bare port number. -/
theorem create_container_spec_amended (image : String) (delete_container : Bool) :
    create_container image delete_container
      = { image := image
          attach_stdout := true
          attach_stderr := true
          auto_remove := delete_container
          port_bindings :=
            [("5066/tcp", [{ host_ip := "127.0.0.1", host_port := "5066/tcp" }]),
              ("9600/tcp", [{ host_ip := "127.0.0.1", host_port := "9600/tcp" }])] } := by
  rfl

/-- C9 counterexample: the binding declared for container port 5066/tcp
carries host port "5066/tcp", not the bare "5066" the claim states. -/
theorem create_container_hostport_counterexample :
    List.lookup "5066/tcp" (create_container "img" true).port_bindings
      = some [{ host_ip := "127.0.0.1", host_port := "5066/tcp" }]
    ∧ ¬(List.lookup "5066/tcp" (create_container "img" true).port_bindings
        = some [{ host_ip := "127.0.0.1", host_port := "5066" }]) := by
  constructor
  · rfl
  · decide

/-- `collect_tests` returns an error exactly when some entry is a
directory missing one of the two fixture files. -/
theorem collect_tests_error_iff (testsDir : Path) :
    ∀ entries : List FsEntry,
      (∃ err, collect_tests testsDir entries = .error err)
        ↔ ∃ e ∈ entries, e.isDir = true
            ∧ (INPUT_FILE ∉ e.files ∨ EXPECTED_FILE ∉ e.files) := by
  intro entries
  induction entries with
  | nil => simp [collect_tests]
  | cons e rest ih =>
    by_cases hd : e.isDir = true
    · by_cases hin : INPUT_FILE ∈ e.files
      · by_cases hex : EXPECTED_FILE ∈ e.files
        · cases hres : collect_tests testsDir rest with
          | ok tcs =>
            rw [hres] at ih
            simp only [collect_tests, hd, hin, hex, if_true, hres]
            simp only [List.mem_cons]
            constructor
            · rintro ⟨err, herr⟩
              exact absurd herr (by simp)
            · rintro ⟨e2, (rfl | h2), hP⟩
              · rcases hP.2 with h | h
                · exact absurd hin h
                · exact absurd hex h
              · exact absurd (ih.mpr ⟨e2, h2, hP⟩) (by simp)
          | error err2 =>
            rw [hres] at ih
            simp only [collect_tests, hd, hin, hex, if_true, hres]
            simp only [List.mem_cons]
            constructor
            · intro _
              rcases ih.mp ⟨err2, rfl⟩ with ⟨e2, h2, hP⟩
              exact ⟨e2, Or.inr h2, hP⟩
            · intro _
              exact ⟨err2, rfl⟩
        · simp only [collect_tests, hd, hin, hex, if_true, if_false]
          simp [hd, hin, hex]
      · simp only [collect_tests, hd, hin, if_true, if_false]
        simp [hd, hin]
    · have hd2 : e.isDir = false := by
        revert hd; cases e.isDir <;> simp
      have hskip : collect_tests testsDir (e :: rest) = collect_tests testsDir rest := by
        simp [collect_tests, hd2]
      rw [hskip, ih]
      constructor
      · rintro ⟨e2, h2, hP⟩
        exact ⟨e2, List.mem_cons_of_mem _ h2, hP⟩
      · rintro ⟨e2, h2, hP⟩
        rcases List.mem_cons.mp h2 with rfl | h3
        · rw [hd2] at hP
          exact absurd hP.1 (by simp)
        · exact ⟨e2, h3, hP⟩

/-- On success, every returned test case pairs the `input.json` and
`expected.json` of a single subdirectory of the tests directory. -/
theorem collect_tests_ok_pairs (testsDir : Path) :
    ∀ (entries : List FsEntry) (tcs : List RTestCase),
      collect_tests testsDir entries = .ok tcs →
      ∀ tc ∈ tcs, ∃ name,
        tc.input = testsDir ++ [name, INPUT_FILE]
        ∧ tc.expected = testsDir ++ [name, EXPECTED_FILE] := by
  intro entries
  induction entries with
  | nil =>
    intro tcs h
    simp only [collect_tests] at h
    injection h with h2
    subst h2
    simp
  | cons e rest ih =>
    intro tcs h
    by_cases hd : e.isDir = true
    · by_cases hin : INPUT_FILE ∈ e.files
      · by_cases hex : EXPECTED_FILE ∈ e.files
        · simp only [collect_tests, hd, hin, hex, if_true] at h
          cases hres : collect_tests testsDir rest with
          | ok tcs2 =>
            rw [hres] at h
            injection h with h2
            subst h2
            intro tc htc
            rcases List.mem_cons.mp htc with rfl | htc2
            · exact ⟨e.name, by simp, by simp⟩
            · exact ih tcs2 hres tc htc2
          | error err =>
            rw [hres] at h
            exact absurd h (by simp)
        · simp [collect_tests, hd, hin, hex] at h
      · simp [collect_tests, hd, hin] at h
    · simp only [collect_tests, hd, if_false] at h
      exact ih tcs h

/-- C10: `collect_tests` silently skips entries that are not directories;
it returns an error — aborting the whole collection — exactly when some
immediate subdirectory lacks a regular file `input.json` or one named
`expected.json`; and on success every returned test case pairs the
`input.json` and the `expected.json` of the same subdirectory. -/
theorem collect_tests_spec (testsDir : Path) :
    (∀ (e : FsEntry) (rest : List FsEntry), e.isDir = false →
        collect_tests testsDir (e :: rest) = collect_tests testsDir rest)
    ∧ (∀ entries : List FsEntry,
        (∃ err, collect_tests testsDir entries = .error err)
          ↔ ∃ e ∈ entries, e.isDir = true
              ∧ (INPUT_FILE ∉ e.files ∨ EXPECTED_FILE ∉ e.files))
    ∧ (∀ (entries : List FsEntry) (tcs : List RTestCase),
        collect_tests testsDir entries = .ok tcs →
        ∀ tc ∈ tcs, ∃ name,
          tc.input = testsDir ++ [name, INPUT_FILE]
          ∧ tc.expected = testsDir ++ [name, EXPECTED_FILE]) := by
  refine ⟨fun e rest h => ?_, collect_tests_error_iff testsDir,
    collect_tests_ok_pairs testsDir⟩
  simp [collect_tests, h]

/-- Witness for C10: a stray non-directory entry is skipped; a
subdirectory missing `expected.json` aborts with an error; a complete
subdirectory yields the test case pairing its own two files. -/
theorem collect_tests_spec_witness :
    collect_tests ["tests"] [⟨"README.md", false, []⟩] = collect_tests ["tests"] []
    ∧ (∃ err, collect_tests ["tests"] [⟨"a", true, [INPUT_FILE]⟩] = .error err)
    ∧ ∀ tc ∈ [({ input := ["tests", "a", INPUT_FILE],
                 expected := ["tests", "a", EXPECTED_FILE] } : RTestCase)],
        ∃ name, tc.input = ["tests"] ++ [name, INPUT_FILE]
          ∧ tc.expected = ["tests"] ++ [name, EXPECTED_FILE] := by
  refine ⟨(collect_tests_spec ["tests"]).1 ⟨"README.md", false, []⟩ [] rfl,
    ((collect_tests_spec ["tests"]).2.1 [⟨"a", true, [INPUT_FILE]⟩]).mpr
      ⟨⟨"a", true, [INPUT_FILE]⟩, by simp, rfl, Or.inr (by decide)⟩,
    (collect_tests_spec ["tests"]).2.2 [⟨"a", true, [INPUT_FILE, EXPECTED_FILE]⟩] _ ?_⟩
  rfl

end Lotus
